import Mathlib

/-!
Shallow embedding of `src/fastmcp/server/http.py` (fastmcp HTTP transport
layer): request-context propagation, auth-gate assembly, SSE and
streamable-HTTP application builders.

Modelling conventions:
- Python objects whose internals are external collaborators (the OAuth
  provider, the routes produced by `mcp.server.auth.routes.create_auth_routes`,
  user-supplied routes and middlewares) are represented by opaque tags.
- Python exceptions raised at build time become `Except BuildError`.
- The `contextvars.ContextVar` holding the current HTTP request becomes an
  explicit `ContextState` threaded through the functions that touch it.
- Object identity of `StreamableHTTPSessionManager` instances is modelled by
  a fresh-id supply (`World.nextObjectId`): each Python-level construction
  consumes one id, so two managers are "the same instance" iff they carry
  the same id.
-/

namespace FastMCPHttp

/-- An inbound HTTP request (`starlette.requests.Request`), reduced to an
identity tag: none of the verified properties inspect its fields. -/
structure Request where
  reqId : Nat
deriving DecidableEq, Repr

/-- State of the module-level ContextVar `_current_http_request`
(default value `None`). -/
structure ContextState where
  current : Option Request
deriving DecidableEq, Repr

/-- The ContextVar before any scope is entered: its declared default is
`None` (`http.py` line 40). -/
def ContextState.initial : ContextState := ContextState.mk none

/-- The token returned by `ContextVar.set`, remembering the value that was
bound at set time so `reset` can restore it. -/
structure ResetToken where
  oldValue : Option Request
deriving DecidableEq, Repr

/-- Model of `_current_http_request.set(request)`: binds the request and
returns a token holding the previous value. -/
def contextVarSet (r : Request) (s : ContextState) : ContextState × ResetToken :=
  (ContextState.mk (some r), ResetToken.mk s.current)

/-- Model of `_current_http_request.reset(token)`: restores the value
recorded in the token. -/
def contextVarReset (tok : ResetToken) (_s : ContextState) : ContextState :=
  ContextState.mk tok.oldValue

/-- Model of `_current_http_request.get()`. -/
def contextVarGet (s : ContextState) : Option Request :=
  s.current

/-- Model of the `set_http_request` context manager (`http.py` lines 46-52):
`token = set(request); try: yield request; finally: reset(token)`.
The body is any state transformer that may also raise (`Except ε`); the
`finally` clause makes the reset run on the success and the failure path
alike, and the body's outcome (value or exception) is propagated. -/
def set_http_request {ε α : Type} (r : Request)
    (body : ContextState → ContextState × Except ε α)
    (s : ContextState) : ContextState × Except ε α :=
  let st := contextVarSet r s
  let res := body st.1
  (contextVarReset st.2 res.1, res.2)

/-- An ASGI scope, reduced to its `"type"` key and the request it would
denote (`Request(scope)` in the middleware below). -/
structure AsgiScope where
  scopeType : String
  request : Request
deriving DecidableEq, Repr

/-- Model of `RequestContextMiddleware.__call__` (`http.py` lines 63-68):
for scopes of type `"http"` the wrapped app runs inside
`set_http_request(Request(scope))`; for every other scope type the wrapped
app is invoked directly, without touching the ContextVar. -/
def requestContextMiddlewareCall {ε : Type}
    (app : AsgiScope → ContextState → ContextState × Except ε Unit)
    (scope : AsgiScope) (s : ContextState) : ContextState × Except ε Unit :=
  if scope.scopeType = "http" then
    set_http_request scope.request (fun cs => app scope cs) s
  else
    app scope s

/-- The OAuth authorization-server provider, an external collaborator,
reduced to an identity tag. -/
structure AuthProvider where
  providerId : Nat
deriving DecidableEq, Repr

/-- Model of `mcp.server.auth.settings.AuthSettings`: the fields
`setup_auth_middleware_and_routes` reads, plus `discoveryRouteTags`, an
abstraction of the (otherwise external, opaque) list of routes that
`create_auth_routes` yields for these settings. -/
structure AuthSettings where
  issuer_url : String
  service_documentation_url : Option String
  client_registration_options : Option Nat
  revocation_options : Option Nat
  required_scopes : Option (List String)
  discoveryRouteTags : List Nat
deriving DecidableEq, Repr

/-- ASGI endpoints appearing in the route table. `requireAuth` is the
external `mcp.server.auth.middleware.bearer_auth.RequireAuthMiddleware`
wrapper applied to an inner endpoint with a required-scope list; the other
constructors tag the concrete handlers defined in `http.py` and
caller-supplied endpoints. `sseEndpoint` is the no-auth wrapper closure
around `handle_sse` (`http.py` lines 218-219). -/
inductive Endpoint where
  | handleSse
  | sseEndpoint
  | handlePostMessage
  | handleStreamableHttp
  | userEndpoint (tag : Nat)
  | requireAuth (requiredScopes : List String) (inner : Endpoint)
deriving DecidableEq, Repr

/-- Entries of a Starlette route table: `Route`, `Mount`, the opaque routes
returned by `create_auth_routes`, and opaque caller-supplied routes. -/
inductive RouteEntry where
  | route (path : String) (methods : List String) (endpoint : Endpoint)
  | mount (path : String) (app : Endpoint)
  | authRoute (tag : Nat)
  | userRoute (tag : Nat)
deriving DecidableEq, Repr

/-- Model of external `mcp.server.auth.routes.create_auth_routes`: it
returns a list of discovery/registration/revocation routes computed from the
provider and settings; here that list is whatever the settings' abstraction
field says it is, wrapped as opaque `authRoute` entries. -/
def create_auth_routes (_provider : AuthProvider) (settings : AuthSettings) :
    List RouteEntry :=
  settings.discoveryRouteTags.map RouteEntry.authRoute

/-- The middleware stages this layer composes: the two auth stages built by
`setup_auth_middleware_and_routes` (`AuthenticationMiddleware` with a
`BearerAuthBackend`, and `AuthContextMiddleware`), the
`RequestContextMiddleware` stage appended by `create_base_app`, and opaque
caller-supplied middlewares. -/
inductive MiddlewareKind where
  | authenticationMW
  | authContextMW
  | requestContextMW
  | userMW (tag : Nat)
deriving DecidableEq, Repr

/-- Errors raised while building an application; `valueError` models the
`ValueError` raised by `setup_auth_middleware_and_routes`. -/
inductive BuildError where
  | valueError (msg : String)
deriving DecidableEq, Repr

/-- Model of `setup_auth_middleware_and_routes` (`http.py` lines 71-117):
without a provider it returns three empty lists; with a provider but no
settings it raises `ValueError`; otherwise it returns the two auth
middleware stages, the routes from `create_auth_routes`, and
`auth_settings.required_scopes or []`. -/
def setup_auth_middleware_and_routes
    (auth_server_provider : Option AuthProvider)
    (auth_settings : Option AuthSettings) :
    Except BuildError (List MiddlewareKind × List RouteEntry × List String) :=
  match auth_server_provider with
  | none => Except.ok ([], [], [])
  | some p =>
    match auth_settings with
    | none => Except.error (BuildError.valueError
      "auth_settings must be provided when auth_server_provider is specified")
    | some s =>
      Except.ok
        ([MiddlewareKind.authenticationMW, MiddlewareKind.authContextMW],
         create_auth_routes p s,
         s.required_scopes.getD [])

/-- Model of `mcp.server.streamable_http_manager.StreamableHTTPSessionManager`:
the construction arguments recorded at `http.py` lines 288-293, plus the
object-identity id drawn from the fresh-id supply. -/
structure SessionManager where
  mgrId : Nat
  event_store : Option Nat
  json_response : Bool
  stateless : Bool
deriving DecidableEq, Repr

/-- The slice of the `FastMCP` server object this module reads and writes:
its `_session_manager` field (`None` until first assigned). -/
structure FastMCP where
  session_manager : Option SessionManager
deriving DecidableEq, Repr

/-- Mutable world threaded through `create_streamable_http_app`: the server
object plus the fresh-id supply modelling Python object identity. -/
structure World where
  server : FastMCP
  nextObjectId : Nat
deriving DecidableEq, Repr

/-- The lifespan hook passed to `create_base_app`:
`create_streamable_http_app` passes a closure that runs
`async with server.session_manager.run()` around the app's serving phase,
capturing the server whose `session_manager` field is read at run time. -/
inductive LifespanKind where
  | sessionManagerRun (mgr : Option SessionManager)
deriving DecidableEq, Repr

/-- The data of the `Starlette(...)` application constructed by
`create_base_app`: route table, middleware list (in the order handed to
Starlette), debug flag, and optional lifespan hook. -/
structure StarletteApp where
  routes : List RouteEntry
  middleware : List MiddlewareKind
  debug : Bool
  lifespan : Option LifespanKind
deriving DecidableEq, Repr

/-- Model of `create_base_app` (`http.py` lines 120-145): it appends a
`RequestContextMiddleware` stage to the end of the given middleware list
and passes everything to `Starlette`. -/
def create_base_app (routes : List RouteEntry) (middleware : List MiddlewareKind)
    (debug : Bool) (lifespan : Option LifespanKind) : StarletteApp :=
  StarletteApp.mk routes (middleware ++ [MiddlewareKind.requestContextMW])
    debug lifespan

/-- The middleware stack of a built Starlette application, as nested
wrapping around the router. -/
inductive MiddlewareStack where
  | router (routes : List RouteEntry)
  | wrap (m : MiddlewareKind) (inner : MiddlewareStack)
deriving DecidableEq, Repr

/-- Model of `starlette.applications.Starlette.build_middleware_stack`
restricted to the user-supplied middleware list: Starlette wraps the router
by iterating over `reversed(middleware)`, so the FIRST middleware in the
list becomes the OUTERMOST stage and the last becomes the innermost
(documented Starlette behaviour; Starlette's own ServerErrorMiddleware /
ExceptionMiddleware stages are omitted here, which only brings the
configured stages closer to the outside). -/
def build_middleware_stack (app : StarletteApp) : MiddlewareStack :=
  app.middleware.foldr MiddlewareStack.wrap (MiddlewareStack.router app.routes)

/-- The outermost stage of a middleware stack, if any. -/
def MiddlewareStack.outermost : MiddlewareStack → Option MiddlewareKind
  | MiddlewareStack.router _ => none
  | MiddlewareStack.wrap m _ => some m

/-- Model of `create_sse_app` (`http.py` lines 148-248): auth setup (which
may raise), then auth routes and middleware first, then the SSE `Route` and
message `Mount` — wrapped in `RequireAuthMiddleware` with the required
scopes when a provider is configured — then caller-supplied routes and
middleware, and finally `create_base_app` with no lifespan. -/
def create_sse_app (_server : FastMCP) (message_path : String) (sse_path : String)
    (auth_server_provider : Option AuthProvider)
    (auth_settings : Option AuthSettings) (debug : Bool)
    (routes : Option (List RouteEntry))
    (middleware : Option (List MiddlewareKind)) :
    Except BuildError StarletteApp :=
  match setup_auth_middleware_and_routes auth_server_provider auth_settings with
  | Except.error e => Except.error e
  | Except.ok (auth_middleware, auth_routes, required_scopes) =>
    let server_routes := auth_routes
    let server_middleware := auth_middleware
    let server_routes := server_routes ++
      (match auth_server_provider with
       | some _ =>
         [RouteEntry.route sse_path ["GET"]
            (Endpoint.requireAuth required_scopes Endpoint.handleSse),
          RouteEntry.mount message_path
            (Endpoint.requireAuth required_scopes Endpoint.handlePostMessage)]
       | none =>
         [RouteEntry.route sse_path ["GET"] Endpoint.sseEndpoint,
          RouteEntry.mount message_path Endpoint.handlePostMessage])
    let server_routes := server_routes ++ routes.getD []
    let server_middleware := server_middleware ++ middleware.getD []
    Except.ok (create_base_app server_routes server_middleware debug none)

/-- Model of the session-manager creation block at the top of
`create_streamable_http_app` (`http.py` lines 287-293): if the server holds
no manager, construct one from the given arguments (consuming a fresh
object id) and store it on the server; otherwise leave the world unchanged. -/
def construct_session_manager (w : World) (event_store : Option Nat)
    (json_response : Bool) (stateless_http : Bool) : World :=
  match w.server.session_manager with
  | some _ => w
  | none =>
    World.mk
      (FastMCP.mk (some (SessionManager.mk w.nextObjectId event_store
        json_response stateless_http)))
      (w.nextObjectId + 1)

/-- Model of `create_streamable_http_app` (`http.py` lines 251-347): first
ensure the session manager exists on the server (this mutation happens
before anything can fail), then auth setup (which may raise), then auth
routes and middleware, then the streamable-HTTP `Mount` — wrapped in
`RequireAuthMiddleware` when a provider is configured — then
caller-supplied routes and middleware, and finally `create_base_app` with
the lifespan closure over `server.session_manager.run()`. The world is
returned alongside the outcome because the server mutation survives a
build-time exception. -/
def create_streamable_http_app (w : World) (streamable_http_path : String)
    (event_store : Option Nat) (auth_server_provider : Option AuthProvider)
    (auth_settings : Option AuthSettings) (json_response : Bool)
    (stateless_http : Bool) (debug : Bool)
    (routes : Option (List RouteEntry))
    (middleware : Option (List MiddlewareKind)) :
    World × Except BuildError StarletteApp :=
  let w := construct_session_manager w event_store json_response stateless_http
  match setup_auth_middleware_and_routes auth_server_provider auth_settings with
  | Except.error e => (w, Except.error e)
  | Except.ok (auth_middleware, auth_routes, required_scopes) =>
    let server_routes := auth_routes
    let server_middleware := auth_middleware
    let server_routes := server_routes ++
      (match auth_server_provider with
       | some _ =>
         [RouteEntry.mount streamable_http_path
            (Endpoint.requireAuth required_scopes Endpoint.handleStreamableHttp)]
       | none =>
         [RouteEntry.mount streamable_http_path Endpoint.handleStreamableHttp])
    let server_routes := server_routes ++ routes.getD []
    let server_middleware := server_middleware ++ middleware.getD []
    (w, Except.ok (create_base_app server_routes server_middleware debug
      (some (LifespanKind.sessionManagerRun w.server.session_manager))))

/-- The authentication outcome attached to a request by the (external)
bearer-auth backend by the time a route-level wrapper inspects it: whether
an authenticated user is present, and the scopes its token carries. -/
structure AuthInfo where
  authenticated : Bool
  scopes : List String
deriving DecidableEq, Repr

/-- Model of the check performed by the external `RequireAuthMiddleware`:
the request must carry an authenticated user whose token holds every
required scope. -/
def requireAuthAllows (required : List String) (a : AuthInfo) : Bool :=
  a.authenticated && required.all (fun sc => a.scopes.contains sc)

/-- Execution of an endpoint on a request with the given auth outcome:
returns whether the request was accepted and the list of base endpoints
whose body actually ran. `requireAuth` (external `RequireAuthMiddleware`,
a given capability) rejects with an authorization error and never invokes
the wrapped app when its check fails; every bare endpoint simply runs. -/
def runEndpoint : Endpoint → AuthInfo → Bool × List Endpoint
  | Endpoint.requireAuth required inner, a =>
    if requireAuthAllows required a then runEndpoint inner a
    else (false, [])
  | Endpoint.handleSse, _ => (true, [Endpoint.handleSse])
  | Endpoint.sseEndpoint, _ => (true, [Endpoint.sseEndpoint])
  | Endpoint.handlePostMessage, _ => (true, [Endpoint.handlePostMessage])
  | Endpoint.handleStreamableHttp, _ => (true, [Endpoint.handleStreamableHttp])
  | Endpoint.userEndpoint t, _ => (true, [Endpoint.userEndpoint t])

/-- Observable events of one run of a built application: the session
manager's `run()` scope being entered and exited, and individual requests
being handled (`raised` records whether that request's handler raised). -/
inductive ServeEvent where
  | managerRunEnter (mgr : SessionManager)
  | requestHandled (idx : Nat) (raised : Bool)
  | managerRunExit (mgr : SessionManager)
deriving DecidableEq, Repr

/-- The serving phase: one event per request, in order. -/
def serveEvents (reqs : List Bool) : List ServeEvent :=
  reqs.enum.map (fun p => ServeEvent.requestHandled p.1 p.2)

/-- Run of a built application over a list of requests (each flagged with
whether its handler raises). Starlette enters the lifespan before serving
and leaves it afterwards; the lifespan of `create_streamable_http_app` is
`async with server.session_manager.run(): yield`, whose exit arm is
guaranteed by the async-with protocol even when the serving phase contained
raising handlers — so the exit event is emitted unconditionally after
serving. Accessing `server.session_manager` when the field is unset raises
inside the lifespan, modelled as an empty run. -/
def runApp (app : StarletteApp) (reqs : List Bool) : List ServeEvent :=
  match app.lifespan with
  | none => serveEvents reqs
  | some (LifespanKind.sessionManagerRun none) => []
  | some (LifespanKind.sessionManagerRun (some m)) =>
    ServeEvent.managerRunEnter m :: (serveEvents reqs ++ [ServeEvent.managerRunExit m])

/-! Helper lemmas shared by the claim theorems. -/

/-- The world coming out of `create_streamable_http_app` is always the one
produced by the session-manager creation block, whether or not auth setup
subsequently raises. -/
theorem create_streamable_http_app_world (w : World) (path : String)
    (es : Option Nat) (p : Option AuthProvider) (st : Option AuthSettings)
    (jr sh dbg : Bool) (rts : Option (List RouteEntry))
    (mw : Option (List MiddlewareKind)) :
    (create_streamable_http_app w path es p st jr sh dbg rts mw).1 =
      construct_session_manager w es jr sh := by
  simp only [create_streamable_http_app]
  rcases setup_auth_middleware_and_routes p st with e | ⟨a, b, c⟩ <;> rfl

/-- After the creation block the server always holds a manager: the
pre-existing one, or a fresh one built from the call's arguments. -/
theorem construct_session_manager_field (w : World) (es : Option Nat)
    (jr sh : Bool) :
    (construct_session_manager w es jr sh).server.session_manager =
      some ((w.server.session_manager).getD
        (SessionManager.mk w.nextObjectId es jr sh)) := by
  unfold construct_session_manager
  cases h : w.server.session_manager with
  | none => rfl
  | some m => simp [h]

/-- A fresh object id is consumed exactly when the server held no manager. -/
theorem construct_session_manager_nextId (w : World) (es : Option Nat)
    (jr sh : Bool) :
    (construct_session_manager w es jr sh).nextObjectId =
      (if (w.server.session_manager).isSome then w.nextObjectId
       else w.nextObjectId + 1) := by
  unfold construct_session_manager
  cases h : w.server.session_manager with
  | none => rfl
  | some m => simp [h]

/-- Running the creation block on a world that already went through it
changes nothing. -/
theorem construct_session_manager_idem (w : World) (es es2 : Option Nat)
    (jr jr2 sh sh2 : Bool) :
    construct_session_manager (construct_session_manager w es jr sh) es2 jr2 sh2 =
      construct_session_manager w es jr sh := by
  unfold construct_session_manager
  cases h : w.server.session_manager with
  | none => rfl
  | some m => simp [h]

/-! Claim theorems. -/

/-- C1: the claim says the RequestContextMiddleware stage is the single
OUTERMOST stage of the assembled middleware chain. Evaluating the code at a
failing input — `create_sse_app` with an auth provider configured — shows
that the stage is indeed added exactly once, but as the LAST entry of the
list handed to Starlette; since Starlette makes the first-listed middleware
the outermost stage, the outermost stage here is the bearer-auth
`AuthenticationMiddleware`, not `RequestContextMiddleware`, contradicting
the claim and the code's own comment "Always add RequestContextMiddleware
as the outermost middleware". -/
theorem requestContextMiddleware_not_outermost :
    ∃ app, create_sse_app (FastMCP.mk none) "/messages/" "/sse"
        (some (AuthProvider.mk 0))
        (some (AuthSettings.mk "https://example.com/" none none none
          (some ["user"]) [0]))
        false none none = Except.ok app
      ∧ app.middleware.count MiddlewareKind.requestContextMW = 1
      ∧ app.middleware.getLast? = some MiddlewareKind.requestContextMW
      ∧ (build_middleware_stack app).outermost = some MiddlewareKind.authenticationMW
      ∧ (build_middleware_stack app).outermost ≠ some MiddlewareKind.requestContextMW := by
  refine ⟨_, rfl, ?_, ?_, ?_, ?_⟩ <;> decide

/-- C2: with an auth provider present and no auth settings, auth setup
raises `ValueError` and both application builders propagate that error
synchronously: no application object is returned by either. -/
theorem provider_without_settings_raises
    (server : FastMCP) (w : World) (p : AuthProvider) (mp sp shp : String)
    (es : Option Nat) (jr sh dbg : Bool) (rts : Option (List RouteEntry))
    (mw : Option (List MiddlewareKind)) :
    setup_auth_middleware_and_routes (some p) none =
      Except.error (BuildError.valueError
        "auth_settings must be provided when auth_server_provider is specified")
    ∧ create_sse_app server mp sp (some p) none dbg rts mw =
        Except.error (BuildError.valueError
          "auth_settings must be provided when auth_server_provider is specified")
    ∧ (create_streamable_http_app w shp es (some p) none jr sh dbg rts mw).2 =
        Except.error (BuildError.valueError
          "auth_settings must be provided when auth_server_provider is specified") :=
  ⟨rfl, rfl, rfl⟩

/-- C4: inside the `set_http_request` scope the current request reads back
as exactly the bound request; on every exit path — the body's outcome,
success or exception, is propagated unchanged — the previously bound value
is restored; and outside any scope the ContextVar yields its default,
`none`. -/
theorem set_http_request_scoped {ε α : Type} (r : Request)
    (body : ContextState → ContextState × Except ε α) (s : ContextState) :
    contextVarGet (contextVarSet r s).1 = some r
    ∧ (set_http_request r body s).1.current = s.current
    ∧ (set_http_request r body s).2 = (body (contextVarSet r s).1).2
    ∧ contextVarGet ContextState.initial = none :=
  ⟨rfl, rfl, rfl, rfl⟩

/-- C5: with no auth provider, `setup_auth_middleware_and_routes` returns
three empty lists (whatever the settings), both builders assemble an
application whose routes and middleware are exactly the transport routes
plus the caller-supplied entries — zero auth middleware, zero auth routes,
no `RequireAuthMiddleware` wrapper — and each transport endpoint runs for a
completely unauthenticated request. -/
theorem no_provider_means_no_auth_entries
    (server : FastMCP) (w : World) (settings : Option AuthSettings)
    (mp sp shp : String) (es : Option Nat) (jr sh dbg : Bool)
    (rts : List RouteEntry) (mw : List MiddlewareKind) :
    setup_auth_middleware_and_routes none settings = Except.ok ([], [], [])
    ∧ create_sse_app server mp sp none settings dbg (some rts) (some mw) =
        Except.ok (StarletteApp.mk
          ([RouteEntry.route sp ["GET"] Endpoint.sseEndpoint,
            RouteEntry.mount mp Endpoint.handlePostMessage] ++ rts)
          (mw ++ [MiddlewareKind.requestContextMW]) dbg none)
    ∧ (create_streamable_http_app w shp es none settings jr sh dbg
         (some rts) (some mw)).2 =
        Except.ok (StarletteApp.mk
          ([RouteEntry.mount shp Endpoint.handleStreamableHttp] ++ rts)
          (mw ++ [MiddlewareKind.requestContextMW]) dbg
          (some (LifespanKind.sessionManagerRun
            ((construct_session_manager w es jr sh).server.session_manager))))
    ∧ runEndpoint Endpoint.sseEndpoint (AuthInfo.mk false []) =
        (true, [Endpoint.sseEndpoint])
    ∧ runEndpoint Endpoint.handlePostMessage (AuthInfo.mk false []) =
        (true, [Endpoint.handlePostMessage])
    ∧ runEndpoint Endpoint.handleStreamableHttp (AuthInfo.mk false []) =
        (true, [Endpoint.handleStreamableHttp]) :=
  ⟨rfl, rfl, rfl, rfl, rfl, rfl⟩

/-- C10: for an inbound event whose scope type is not `"http"` — lifespan,
websocket, or anything else — `RequestContextMiddleware` invokes the
wrapped application directly on the unchanged context state: no request is
bound and no reset happens, so the ambient current request stays whatever
it was. -/
theorem non_http_scope_leaves_context_unbound {ε : Type}
    (app : AsgiScope → ContextState → ContextState × Except ε Unit)
    (scope : AsgiScope) (s : ContextState)
    (h : scope.scopeType ≠ "http") :
    requestContextMiddlewareCall app scope s = app scope s := by
  unfold requestContextMiddlewareCall
  rw [if_neg h]

/-- Witness for C10 at a concrete lifespan-scope event and a concrete
wrapped application. -/
theorem non_http_scope_leaves_context_unbound_witness :
    requestContextMiddlewareCall
      (fun _ cs => (cs, (Except.ok () : Except Unit Unit)))
      (AsgiScope.mk "lifespan" (Request.mk 0)) ContextState.initial =
    (fun (_ : AsgiScope) (cs : ContextState) => (cs, (Except.ok () : Except Unit Unit)))
      (AsgiScope.mk "lifespan" (Request.mk 0)) ContextState.initial :=
  non_http_scope_leaves_context_unbound
    (fun _ cs => (cs, (Except.ok () : Except Unit Unit)))
    (AsgiScope.mk "lifespan" (Request.mk 0)) ContextState.initial (by decide)

/-- C3: the session manager stored on the server is an identity-preserving
singleton: after any call it is the pre-existing manager if one was held
(unchanged, no fresh object id consumed) and a freshly constructed one
exactly when the field was empty; a second call — with any arguments —
leaves the world, and hence the stored manager instance, untouched. -/
theorem session_manager_identity_preserving
    (w : World) (path path2 : String) (es es2 : Option Nat)
    (p p2 : Option AuthProvider) (st st2 : Option AuthSettings)
    (jr jr2 sh sh2 dbg dbg2 : Bool) (rts rts2 : Option (List RouteEntry))
    (mw mw2 : Option (List MiddlewareKind)) :
    (create_streamable_http_app w path es p st jr sh dbg rts mw).1.server.session_manager =
      some ((w.server.session_manager).getD
        (SessionManager.mk w.nextObjectId es jr sh))
    ∧ (create_streamable_http_app w path es p st jr sh dbg rts mw).1.nextObjectId =
        (if (w.server.session_manager).isSome then w.nextObjectId
         else w.nextObjectId + 1)
    ∧ (create_streamable_http_app
         (create_streamable_http_app w path es p st jr sh dbg rts mw).1
         path2 es2 p2 st2 jr2 sh2 dbg2 rts2 mw2).1 =
      (create_streamable_http_app w path es p st jr sh dbg rts mw).1 := by
  simp only [create_streamable_http_app_world]
  exact ⟨construct_session_manager_field w es jr sh,
         construct_session_manager_nextId w es jr sh,
         construct_session_manager_idem w es es2 jr jr2 sh sh2⟩

/-- C6: with an auth provider configured, the SSE connection-open route,
the SSE message-delivery mount, and the streamable-HTTP mount are each
wrapped in the same `RequireAuthMiddleware` wrapper carrying the
required-scope list from the settings; and the wrapper's semantics rejects
a request failing the scope check without ever invoking the wrapped
endpoint. -/
theorem auth_wraps_each_data_plane_endpoint
    (server : FastMCP) (w : World) (p : AuthProvider) (st : AuthSettings)
    (mp sp shp : String) (es : Option Nat) (jr sh dbg : Bool)
    (rts : List RouteEntry) (mw : List MiddlewareKind)
    (a : AuthInfo) (e : Endpoint) :
    create_sse_app server mp sp (some p) (some st) dbg (some rts) (some mw) =
      Except.ok (StarletteApp.mk
        ((create_auth_routes p st ++
          [RouteEntry.route sp ["GET"]
             (Endpoint.requireAuth (st.required_scopes.getD []) Endpoint.handleSse),
           RouteEntry.mount mp
             (Endpoint.requireAuth (st.required_scopes.getD [])
               Endpoint.handlePostMessage)]) ++ rts)
        (([MiddlewareKind.authenticationMW, MiddlewareKind.authContextMW] ++ mw)
          ++ [MiddlewareKind.requestContextMW]) dbg none)
    ∧ (create_streamable_http_app w shp es (some p) (some st) jr sh dbg
         (some rts) (some mw)).2 =
      Except.ok (StarletteApp.mk
        ((create_auth_routes p st ++
          [RouteEntry.mount shp
             (Endpoint.requireAuth (st.required_scopes.getD [])
               Endpoint.handleStreamableHttp)]) ++ rts)
        (([MiddlewareKind.authenticationMW, MiddlewareKind.authContextMW] ++ mw)
          ++ [MiddlewareKind.requestContextMW]) dbg
        (some (LifespanKind.sessionManagerRun
          ((construct_session_manager w es jr sh).server.session_manager))))
    ∧ runEndpoint (Endpoint.requireAuth (st.required_scopes.getD []) e) a =
        (if requireAuthAllows (st.required_scopes.getD []) a then runEndpoint e a
         else (false, [])) :=
  ⟨rfl, rfl, rfl⟩

/-- The lifespan of any successfully built streamable-HTTP application is
the `run()` scope of the manager the creation block left on the server. -/
theorem create_streamable_http_app_ok_lifespan
    (w : World) (shp : String) (es : Option Nat) (p : Option AuthProvider)
    (st : Option AuthSettings) (jr sh dbg : Bool)
    (rts : Option (List RouteEntry)) (mw : Option (List MiddlewareKind))
    (app : StarletteApp)
    (h : (create_streamable_http_app w shp es p st jr sh dbg rts mw).2 =
      Except.ok app) :
    app.lifespan = some (LifespanKind.sessionManagerRun
      ((construct_session_manager w es jr sh).server.session_manager)) := by
  simp only [create_streamable_http_app] at h
  rcases hs : setup_auth_middleware_and_routes p st with e | ⟨a, b, c⟩ <;>
    rw [hs] at h <;> simp at h
  rw [← h]
  rfl

/-- C7: every application built by `create_streamable_http_app` owns
exactly one lifespan hook — the stored session manager's `run()` scope —
and a run of the application emits the scope entry first, then all request
events, then the scope exit; the exit event is present in every run,
including runs in which request handlers raised. -/
theorem streamable_app_lifespan_brackets_serving
    (w : World) (shp : String) (es : Option Nat) (p : Option AuthProvider)
    (st : Option AuthSettings) (jr sh dbg : Bool)
    (rts : Option (List RouteEntry)) (mw : Option (List MiddlewareKind))
    (app : StarletteApp) (reqs : List Bool)
    (h : (create_streamable_http_app w shp es p st jr sh dbg rts mw).2 =
      Except.ok app) :
    app.lifespan = some (LifespanKind.sessionManagerRun
      (some ((w.server.session_manager).getD
        (SessionManager.mk w.nextObjectId es jr sh))))
    ∧ runApp app reqs =
        ServeEvent.managerRunEnter ((w.server.session_manager).getD
            (SessionManager.mk w.nextObjectId es jr sh))
          :: (serveEvents reqs ++
              [ServeEvent.managerRunExit ((w.server.session_manager).getD
                (SessionManager.mk w.nextObjectId es jr sh))])
    ∧ ServeEvent.managerRunExit ((w.server.session_manager).getD
        (SessionManager.mk w.nextObjectId es jr sh)) ∈ runApp app reqs := by
  have happ := create_streamable_http_app_ok_lifespan w shp es p st jr sh dbg
    rts mw app h
  rw [construct_session_manager_field] at happ
  have hrun : runApp app reqs =
      ServeEvent.managerRunEnter ((w.server.session_manager).getD
          (SessionManager.mk w.nextObjectId es jr sh))
        :: (serveEvents reqs ++
            [ServeEvent.managerRunExit ((w.server.session_manager).getD
              (SessionManager.mk w.nextObjectId es jr sh))]) := by
    unfold runApp
    rw [happ]
  exact ⟨happ, hrun, by rw [hrun]; simp⟩

/-- Witness for C7 at a concrete build (empty server, no auth) and a run
containing one raising request. -/
theorem streamable_app_lifespan_brackets_serving_witness :
    (StarletteApp.mk [RouteEntry.mount "/mcp" Endpoint.handleStreamableHttp]
        [MiddlewareKind.requestContextMW] false
        (some (LifespanKind.sessionManagerRun
          (some (SessionManager.mk 0 none false false))))).lifespan
      = some (LifespanKind.sessionManagerRun
          (some (SessionManager.mk 0 none false false)))
    ∧ runApp (StarletteApp.mk [RouteEntry.mount "/mcp" Endpoint.handleStreamableHttp]
        [MiddlewareKind.requestContextMW] false
        (some (LifespanKind.sessionManagerRun
          (some (SessionManager.mk 0 none false false))))) [false, true] =
        ServeEvent.managerRunEnter (SessionManager.mk 0 none false false)
          :: (serveEvents [false, true] ++
              [ServeEvent.managerRunExit (SessionManager.mk 0 none false false)])
    ∧ ServeEvent.managerRunExit (SessionManager.mk 0 none false false) ∈
        runApp (StarletteApp.mk [RouteEntry.mount "/mcp" Endpoint.handleStreamableHttp]
          [MiddlewareKind.requestContextMW] false
          (some (LifespanKind.sessionManagerRun
            (some (SessionManager.mk 0 none false false))))) [false, true] :=
  streamable_app_lifespan_brackets_serving (World.mk (FastMCP.mk none) 0) "/mcp"
    none none none false false false none none
    (StarletteApp.mk [RouteEntry.mount "/mcp" Endpoint.handleStreamableHttp]
      [MiddlewareKind.requestContextMW] false
      (some (LifespanKind.sessionManagerRun
        (some (SessionManager.mk 0 none false false))))) [false, true] rfl

/-- C8: in every assembled application — both builders, with and without
auth — the protocol-owned routes (auth discovery routes, then the SSE or
streamable-HTTP routes and mounts) occupy a prefix of the final route
table, and the caller-supplied routes are exactly the trailing segment, so
a user route sits at the lowest precedence under Starlette's first-match
routing. -/
theorem user_routes_registered_last
    (server : FastMCP) (w w2 : World) (p : AuthProvider) (st : AuthSettings)
    (mp sp shp : String) (es es2 : Option Nat) (jr jr2 sh sh2 dbg dbg2 : Bool)
    (rts : List RouteEntry) (mw : Option (List MiddlewareKind)) :
    (∃ app, create_sse_app server mp sp none none dbg (some rts) mw =
        Except.ok app
      ∧ app.routes =
          [RouteEntry.route sp ["GET"] Endpoint.sseEndpoint,
           RouteEntry.mount mp Endpoint.handlePostMessage] ++ rts)
    ∧ (∃ app, create_sse_app server mp sp (some p) (some st) dbg (some rts) mw =
        Except.ok app
      ∧ app.routes =
          (create_auth_routes p st ++
           [RouteEntry.route sp ["GET"]
              (Endpoint.requireAuth (st.required_scopes.getD []) Endpoint.handleSse),
            RouteEntry.mount mp
              (Endpoint.requireAuth (st.required_scopes.getD [])
                Endpoint.handlePostMessage)]) ++ rts)
    ∧ (∃ app, (create_streamable_http_app w shp es none none jr sh dbg
        (some rts) mw).2 = Except.ok app
      ∧ app.routes = [RouteEntry.mount shp Endpoint.handleStreamableHttp] ++ rts)
    ∧ (∃ app, (create_streamable_http_app w2 shp es2 (some p) (some st) jr2 sh2
        dbg2 (some rts) mw).2 = Except.ok app
      ∧ app.routes =
          (create_auth_routes p st ++
           [RouteEntry.mount shp
              (Endpoint.requireAuth (st.required_scopes.getD [])
                Endpoint.handleStreamableHttp)]) ++ rts) :=
  ⟨⟨_, rfl, rfl⟩, ⟨_, rfl, rfl⟩, ⟨_, rfl, rfl⟩, ⟨_, rfl, rfl⟩⟩

/-- C9: on a server holding no session manager, a call with an auth
provider but no auth settings still constructs and assigns a fresh session
manager — the mutation precedes the auth check — and then returns the
configuration error: the world comes back mutated and no application is
produced. -/
theorem manager_assigned_despite_config_error
    (w : World) (shp : String) (es : Option Nat) (p : AuthProvider)
    (jr sh dbg : Bool) (rts : Option (List RouteEntry))
    (mw : Option (List MiddlewareKind))
    (h : w.server.session_manager = none) :
    create_streamable_http_app w shp es (some p) none jr sh dbg rts mw =
      (World.mk (FastMCP.mk (some (SessionManager.mk w.nextObjectId es jr sh)))
         (w.nextObjectId + 1),
       Except.error (BuildError.valueError
         "auth_settings must be provided when auth_server_provider is specified")) := by
  simp only [create_streamable_http_app, construct_session_manager,
    setup_auth_middleware_and_routes, h]

/-- Witness for C9 at a concrete empty server. -/
theorem manager_assigned_despite_config_error_witness :
    create_streamable_http_app (World.mk (FastMCP.mk none) 5) "/mcp" none
      (some (AuthProvider.mk 1)) none false false false none none =
      (World.mk (FastMCP.mk (some (SessionManager.mk 5 none false false))) 6,
       Except.error (BuildError.valueError
         "auth_settings must be provided when auth_server_provider is specified")) :=
  manager_assigned_despite_config_error (World.mk (FastMCP.mk none) 5) "/mcp"
    none (AuthProvider.mk 1) false false false none none rfl

end FastMCPHttp
